import Mathlib

/-!
Shallow embedding of `src/client/src/components/it-equipment/it-equipment-form.tsx`.

The file contains one React component, `ITEquipmentForm`, built from:
  * `itEquipmentFormSchema` — a zod object schema validating six string fields;
  * `handleSubmit` — the submission handler that sanitizes the validated
    values and forwards them to the external `onSubmit` callback;
  * default-value merging in the `useForm` call;
  * the Reset and submit buttons, whose `disabled` props and label depend on
    `isLoading` and the schema validity of the current draft.

Strings are modelled as Lean `String`; the drafts in question are ASCII, where
JavaScript's UTF-16 `length` agrees with Lean's codepoint `String.length`, and
JavaScript's `String.prototype.trim` agrees with trimming by
`Char.isWhitespace`.
-/

namespace ITEquipment

/-- Drop leading whitespace characters from a character list (the leading half
of JavaScript `String.prototype.trim`, on ASCII input). -/
def dropLeadingWs : List Char → List Char
  | [] => []
  | c :: cs => if c.isWhitespace then dropLeadingWs cs else c :: cs

/-- Trim whitespace from both ends of a character list: drop it on the left,
then reverse, drop on the left again, and reverse back. -/
def trimChars (cs : List Char) : List Char :=
  ((dropLeadingWs ((dropLeadingWs cs).reverse)).reverse)

/-- JavaScript `String.prototype.trim` on ASCII strings. -/
def jsTrim (s : String) : String := ⟨trimChars s.data⟩

/-- JavaScript `x || d` for `x` a string or `undefined` (`none`): the default
`d` is returned when `x` is `undefined` or the empty string (the only falsy
string), and `x` itself otherwise. -/
def jsOr (o : Option String) (d : String) : String :=
  match o with
  | none => d
  | some s => if s = "" then d else s

/-- The `ITEquipmentFormValues` record: the six string fields of the draft,
as inferred from `itEquipmentFormSchema`. -/
structure Draft where
  name : String
  category : String
  totalQuantity : String
  model : String
  location : String
  dateAcquired : String
  deriving DecidableEq, Repr

/-- A draft in which each field may be `undefined` (`none`); the defensive
`values.field?.trim() || ""` accesses in `handleSubmit` are written against
this shape, as is the `Partial<ITEquipmentFormValues>` type of
`defaultValues`. -/
structure DraftOpt where
  name : Option String
  category : Option String
  totalQuantity : Option String
  model : Option String
  location : Option String
  dateAcquired : Option String
  deriving DecidableEq, Repr

/-- The six field identifiers, used as the paths zod attaches issues to. -/
inductive Field
  | name
  | category
  | totalQuantity
  | model
  | location
  | dateAcquired
  deriving DecidableEq, Repr

/-- `z.string().min(2, "Name must be at least 2 characters")`: zod `min` on a
string checks the raw length, with no trimming. -/
def nameValid (s : String) : Bool := decide (2 ≤ s.length)

/-- `z.string().min(1, "Category is required")`. -/
def categoryValid (s : String) : Bool := decide (1 ≤ s.length)

/-- `z.string().min(1, "Total quantity is required")`. -/
def totalQuantityValid (s : String) : Bool := decide (1 ≤ s.length)

/-- `z.string().min(1, "Model is required")`. -/
def modelValid (s : String) : Bool := decide (1 ≤ s.length)

/-- `z.string().min(1, "Location is required")`. -/
def locationValid (s : String) : Bool := decide (1 ≤ s.length)

/-- `z.string().min(1, "Date acquired is required")`. -/
def dateAcquiredValid (s : String) : Bool := decide (1 ≤ s.length)

/-- `itEquipmentFormSchema` seen as a predicate: the zod object parse succeeds
exactly when every field check succeeds.  This is `form.formState.isValid`
under the `zodResolver` with `mode: "onChange"`. -/
def draftValid (d : Draft) : Bool :=
  nameValid d.name && categoryValid d.category && totalQuantityValid d.totalQuantity &&
    modelValid d.model && locationValid d.location && dateAcquiredValid d.dateAcquired

/-- The issues produced by `itEquipmentFormSchema` on a draft: each failing
`min` check contributes its message, attached to its own field's path.  zod
produces no issue without a field path here, so the component surfaces no
global error; react-hook-form displays each entry under its field via
`FormMessage`. -/
def fieldErrors (d : Draft) : List (Field × String) :=
  (if nameValid d.name then [] else [(Field.name, "Name must be at least 2 characters")]) ++
  (if categoryValid d.category then [] else [(Field.category, "Category is required")]) ++
  (if totalQuantityValid d.totalQuantity then [] else
    [(Field.totalQuantity, "Total quantity is required")]) ++
  (if modelValid d.model then [] else [(Field.model, "Model is required")]) ++
  (if locationValid d.location then [] else [(Field.location, "Location is required")]) ++
  (if dateAcquiredValid d.dateAcquired then [] else
    [(Field.dateAcquired, "Date acquired is required")])

/-- The `sanitizedValues` object built inside `handleSubmit`: each text field
is `values.field?.trim() || ""` and the date field is
`values.dateAcquired || ""`. -/
def sanitizeValues (v : DraftOpt) : Draft :=
  { name := jsOr (v.name.map jsTrim) ""
    category := jsOr (v.category.map jsTrim) ""
    totalQuantity := jsOr (v.totalQuantity.map jsTrim) ""
    model := jsOr (v.model.map jsTrim) ""
    location := jsOr (v.location.map jsTrim) ""
    dateAcquired := jsOr v.dateAcquired "" }

/-- View a fully-present draft as an optional draft (every field defined). -/
def Draft.toOpt (d : Draft) : DraftOpt :=
  { name := some d.name
    category := some d.category
    totalQuantity := some d.totalQuantity
    model := some d.model
    location := some d.location
    dateAcquired := some d.dateAcquired }

/-- The component's `handleSubmit` on the values react-hook-form delivers
(all fields present): build `sanitizedValues` and hand them to `onSubmit`. -/
def handleSubmitValues (d : Draft) : Draft := sanitizeValues d.toOpt

/-- `form.handleSubmit(handleSubmit)` on the current draft: react-hook-form
runs the `zodResolver` first and invokes the inner handler only when the
schema accepts the draft.  The result is the value passed to the external
`onSubmit` callback, or `none` when no submission occurs. -/
def formSubmit (d : Draft) : Option Draft :=
  if draftValid d then some (handleSubmitValues d) else none

/-- `disabled={isLoading || !form.formState.isValid}` on the submit button. -/
def submitButtonDisabled (isLoading : Bool) (d : Draft) : Bool :=
  isLoading || !draftValid d

/-- The submit control is enabled when its `disabled` prop is false. -/
def submitEnabled (isLoading : Bool) (d : Draft) : Bool :=
  !(submitButtonDisabled isLoading d)

/-- `disabled={isLoading}` on the Reset button. -/
def resetButtonDisabled (isLoading : Bool) : Bool := isLoading

/-- `{isLoading ? "Creating..." : "Create Equipment"}`. -/
def submitButtonLabel (isLoading : Bool) : String :=
  if isLoading then "Creating..." else "Create Equipment"

/-- The caller-supplied `defaultValues` prop: a `Partial<ITEquipmentFormValues>`
in which each field may be absent. -/
structure DefaultValues where
  name : Option String
  category : Option String
  totalQuantity : Option String
  model : Option String
  location : Option String
  dateAcquired : Option String
  deriving DecidableEq, Repr

/-- The destructuring default for the `defaultValues` prop: the all-empty
object used when the caller omits the prop entirely. -/
def defaultDefaults : DefaultValues :=
  { name := some ""
    category := some ""
    totalQuantity := some ""
    model := some ""
    location := some ""
    dateAcquired := some "" }

/-- The `defaultValues` object handed to `useForm`: each field is
`defaultValues?.field || ""`. -/
def initDraft (dv : DefaultValues) : Draft :=
  { name := jsOr dv.name ""
    category := jsOr dv.category ""
    totalQuantity := jsOr dv.totalQuantity ""
    model := jsOr dv.model ""
    location := jsOr dv.location ""
    dateAcquired := jsOr dv.dateAcquired "" }

/-- The initial draft at mount for an optional `defaultValues` prop: the
destructuring default applies when the prop is omitted. -/
def mountDraft (odv : Option DefaultValues) : Draft :=
  initDraft (odv.getD defaultDefaults)

/-- One user edit: a controlled `Input` change writes a new string into one
field of the draft. -/
def applyEdit (d : Draft) (e : Field × String) : Draft :=
  match e.1 with
  | Field.name => { d with name := e.2 }
  | Field.category => { d with category := e.2 }
  | Field.totalQuantity => { d with totalQuantity := e.2 }
  | Field.model => { d with model := e.2 }
  | Field.location => { d with location := e.2 }
  | Field.dateAcquired => { d with dateAcquired := e.2 }

/-- `form.reset()` in the Reset button's `onClick`: restores the draft to the
`defaultValues` given to `useForm`, whatever the current draft is. -/
def resetForm (dv : DefaultValues) (_current : Draft) : Draft := initDraft dv

/-- The spec's §3 data-model table, written from the spec's words for
comparison with the code's `draftValid`: name has length at least 2 after
trimming, the four text fields are non-empty after trimming, and the date
field is non-empty. -/
def specSubmittable (d : Draft) : Bool :=
  decide (2 ≤ (jsTrim d.name).length) &&
    decide (jsTrim d.category ≠ "") &&
    decide (jsTrim d.totalQuantity ≠ "") &&
    decide (jsTrim d.model ≠ "") &&
    decide (jsTrim d.location ≠ "") &&
    decide (d.dateAcquired ≠ "")

theorem jsOr_getD (o : Option String) : jsOr o "" = o.getD "" := by
  cases o with
  | none => rfl
  | some s =>
    show (if s = "" then "" else s) = s
    split
    · simp_all
    · rfl

theorem jsOr_map_trim (o : Option String) :
    jsOr (o.map jsTrim) "" = jsTrim (o.getD "") := by
  cases o with
  | none => rfl
  | some s =>
    show (if jsTrim s = "" then "" else jsTrim s) = jsTrim s
    split
    · simp_all
    · rfl

theorem length_pos_iff_ne_empty (s : String) : 1 ≤ s.length ↔ s ≠ "" := by
  obtain ⟨data⟩ := s
  cases data with
  | nil => simp [String.length]
  | cons c cs =>
    constructor
    · intro _ h
      have : (String.mk (c :: cs)).data = ("" : String).data := by rw [h]
      simp at this
    · intro _
      simp [String.length]

/-- C1 counterexample: the name `" A"` (a space then one character) has raw
length 2, so `z.string().min(2)` accepts it, yet its trimmed length is 1 —
refuting the claim that validation accepts a name exactly when its trimmed
length is at least 2. -/
theorem c1_schema_accepts_padded_single_char :
    nameValid " A" = true ∧ ¬ 2 ≤ (jsTrim " A").length := by
  exact ⟨by decide, by decide⟩

/-- C1 amended: the schema accepts the name field if and only if the raw,
untrimmed length is at least 2; no trimming is applied by validation. -/
theorem c1_name_accepted_iff_raw_length_ge_two (s : String) :
    nameValid s = true ↔ 2 ≤ s.length := by
  simp [nameValid]

/-- C2 counterexample: a field consisting of a single space is accepted by
every one of the four `min(1)` checks, although it is empty after trimming —
refuting the claim that these fields are accepted exactly when non-empty
after trimming. -/
theorem c2_whitespace_only_fields_accepted :
    categoryValid " " = true ∧ totalQuantityValid " " = true ∧
      modelValid " " = true ∧ locationValid " " = true ∧ jsTrim " " = "" := by
  exact ⟨by decide, by decide, by decide, by decide, by decide⟩

/-- C2 amended: the schema accepts each of the category, totalQuantity, model
and location fields if and only if the raw string is non-empty; whitespace is
not trimmed, so a whitespace-only field passes. -/
theorem c2_required_accepted_iff_nonempty (s : String) :
    (categoryValid s = true ↔ s ≠ "") ∧ (totalQuantityValid s = true ↔ s ≠ "") ∧
      (modelValid s = true ↔ s ≠ "") ∧ (locationValid s = true ↔ s ≠ "") := by
  have h := length_pos_iff_ne_empty s
  refine ⟨?_, ?_, ?_, ?_⟩ <;>
    simp [categoryValid, totalQuantityValid, modelValid, locationValid, h]

/-- C3 counterexample: with `isLoading` false, the draft whose name is `" A"`
and whose other five fields are a single space enables the submit control
(every raw `min` check passes) while violating the spec's §3 trimmed
constraints — refuting the claim that submit is enabled exactly when the
§3 table holds. -/
theorem c3_submit_enabled_despite_spec_violation :
    submitEnabled false ⟨" A", " ", " ", " ", " ", " "⟩ = true ∧
      specSubmittable ⟨" A", " ", " ", " ", " ", " "⟩ = false := by
  exact ⟨by decide, by decide⟩

/-- C3 amended: when no submission is in flight, the submit control is enabled
if and only if the draft satisfies the schema's raw (untrimmed) constraints:
name length at least 2 and every other field of length at least 1. -/
theorem c3_submit_enabled_iff_schema_raw_constraints (d : Draft) :
    submitEnabled false d = true ↔
      (2 ≤ d.name.length ∧ 1 ≤ d.category.length ∧ 1 ≤ d.totalQuantity.length ∧
        1 ≤ d.model.length ∧ 1 ≤ d.location.length ∧ 1 ≤ d.dateAcquired.length) := by
  simp [submitEnabled, submitButtonDisabled, draftValid, nameValid, categoryValid,
    totalQuantityValid, modelValid, locationValid, dateAcquiredValid, and_assoc]

/-- C4: for every draft handed to the submission handler, each of the five
text fields of the sanitized draft equals the trimmed input (with a missing
field coerced to the empty string first), and the date field is passed through
unmodified apart from the same coercion of a missing value to `""`. -/
theorem c4_sanitized_fields_are_trimmed_date_passthrough (v : DraftOpt) :
    (sanitizeValues v).name = jsTrim (v.name.getD "") ∧
      (sanitizeValues v).category = jsTrim (v.category.getD "") ∧
      (sanitizeValues v).totalQuantity = jsTrim (v.totalQuantity.getD "") ∧
      (sanitizeValues v).model = jsTrim (v.model.getD "") ∧
      (sanitizeValues v).location = jsTrim (v.location.getD "") ∧
      (sanitizeValues v).dateAcquired = v.dateAcquired.getD "" := by
  exact ⟨jsOr_map_trim v.name, jsOr_map_trim v.category, jsOr_map_trim v.totalQuantity,
    jsOr_map_trim v.model, jsOr_map_trim v.location, jsOr_getD v.dateAcquired⟩

/-- C5 counterexample: the draft with name `" A"` and otherwise valid fields
passes validation, so submission proceeds, and the value actually handed to
`onSubmit` is the sanitized draft with name `"A"` — which fails validation.
This refutes the claim that `onSubmit` is never invoked with a draft failing
validation. -/
theorem c5_onSubmit_receives_invalid_sanitized_draft :
    formSubmit ⟨" A", "Laptop", "5", "Latitude 5520", "Office A", "2024-01-15"⟩ =
        some ⟨"A", "Laptop", "5", "Latitude 5520", "Office A", "2024-01-15"⟩ ∧
      draftValid ⟨"A", "Laptop", "5", "Latitude 5520", "Office A", "2024-01-15"⟩ = false := by
  exact ⟨by decide, by decide⟩

/-- C5 amended: if the current draft violates any validation constraint, no
submission occurs — the handler is reached only after the resolver accepts the
current draft; the sanitized draft actually passed to `onSubmit` may itself
fail validation. -/
theorem c5_no_submission_when_draft_invalid (d : Draft) (h : draftValid d = false) :
    formSubmit d = none := by
  simp [formSubmit, h]

/-- C5 witness: the all-empty draft fails validation and produces no
submission. -/
theorem c5_no_submission_witness :
    draftValid ⟨"", "", "", "", "", ""⟩ = false ∧
      formSubmit ⟨"", "", "", "", "", ""⟩ = none :=
  ⟨by decide, c5_no_submission_when_draft_invalid ⟨"", "", "", "", "", ""⟩ (by decide)⟩

/-- C6: sanitization does not preserve schema validity — there is a draft the
schema accepts (name `" X"`, a space then one character) whose sanitized form,
as produced by the submission handler, violates the schema's name
constraint. -/
theorem c6_sanitization_breaks_validity :
    ∃ d : Draft, draftValid d = true ∧
      nameValid (handleSubmitValues d).name = false :=
  ⟨⟨" X", "a", "1", "m", "loc", "2024-02-02"⟩, by decide, by decide⟩

/-- C7: for every draft whose name is the single character `"A"`, validation
attaches the inline message "Name must be at least 2 characters" to the name
field (the error list carries field-attached messages only, so nothing is
surfaced globally), the draft is invalid, the submit control is disabled, and
no submission occurs. -/
theorem c7_single_char_name_error_and_blocked (d : Draft) (h : d.name = "A") :
    (Field.name, "Name must be at least 2 characters") ∈ fieldErrors d ∧
      draftValid d = false ∧ submitButtonDisabled false d = true ∧
      formSubmit d = none := by
  have hnv : nameValid d.name = false := by rw [h]; decide
  have hdv : draftValid d = false := by simp [draftValid, hnv]
  refine ⟨?_, hdv, ?_, ?_⟩
  · simp [fieldErrors, hnv]
  · simp [submitButtonDisabled, hdv]
  · simp [formSubmit, hdv]

/-- C7 witness: a concrete draft with name `"A"`. -/
theorem c7_single_char_name_witness :
    (⟨"A", "c", "1", "m", "loc", "2024-01-15"⟩ : Draft).name = "A" ∧
      ((Field.name, "Name must be at least 2 characters") ∈
          fieldErrors ⟨"A", "c", "1", "m", "loc", "2024-01-15"⟩ ∧
        draftValid ⟨"A", "c", "1", "m", "loc", "2024-01-15"⟩ = false ∧
        submitButtonDisabled false ⟨"A", "c", "1", "m", "loc", "2024-01-15"⟩ = true ∧
        formSubmit ⟨"A", "c", "1", "m", "loc", "2024-01-15"⟩ = none) :=
  ⟨rfl, c7_single_char_name_error_and_blocked ⟨"A", "c", "1", "m", "loc", "2024-01-15"⟩ rfl⟩

/-- C8: while `isLoading` is true, the Reset and submit controls are disabled
whatever the draft, the submit label reads "Creating...", and with `isLoading`
false it reads "Create Equipment". -/
theorem c8_loading_disables_controls_and_relabels (d : Draft) :
    resetButtonDisabled true = true ∧ submitButtonDisabled true d = true ∧
      submitButtonLabel true = "Creating..." ∧
      submitButtonLabel false = "Create Equipment" := by
  exact ⟨rfl, by simp [submitButtonDisabled], rfl, rfl⟩

/-- C9: invoking Reset after any sequence of edits restores the draft to the
initial defaults built from the caller's `defaultValues` (each missing field
defaulting to the empty string), and the Reset control is disabled while a
submission is in flight. -/
theorem c9_reset_restores_defaults (dv : DefaultValues) (edits : List (Field × String)) :
    resetForm dv (edits.foldl applyEdit (initDraft dv)) = initDraft dv ∧
      resetButtonDisabled true = true :=
  ⟨rfl, rfl⟩

/-- C10: the initial draft at mount merges the caller's partial defaults
against an all-empty baseline — each field takes the caller's value when
supplied and the empty string otherwise — and omitting the prop entirely
yields the all-empty draft. -/
theorem c10_mount_merges_defaults (dv : DefaultValues) :
    (initDraft dv).name = dv.name.getD "" ∧
      (initDraft dv).category = dv.category.getD "" ∧
      (initDraft dv).totalQuantity = dv.totalQuantity.getD "" ∧
      (initDraft dv).model = dv.model.getD "" ∧
      (initDraft dv).location = dv.location.getD "" ∧
      (initDraft dv).dateAcquired = dv.dateAcquired.getD "" ∧
      mountDraft none = ⟨"", "", "", "", "", ""⟩ := by
  exact ⟨jsOr_getD dv.name, jsOr_getD dv.category, jsOr_getD dv.totalQuantity,
    jsOr_getD dv.model, jsOr_getD dv.location, jsOr_getD dv.dateAcquired, by decide⟩

end ITEquipment
